import Mathlib

/-!
Verification of the `upgradeScripts` repository: the k6 load-test drivers
(`load-tests/chat-load-test.js`, `load-tests/single-room-load-test.js`) and
the OpenSearch metrics checker (`checkOpenSearchMetrics.ts`).

The embedding translates the per-iteration classification/counter/latch logic
of the load drivers into a pure state-transition function, and the metrics
fetch pipeline of the checker,, issue classifier and CSV flattening into pure
functions over a snapshot record.
-/

namespace UpgradeScripts

/-! ## Load driver: response model and classification -/

/-- One completed HTTP exchange as seen by the k6 script: `response.status`,
`response.error_code` (0 when absent) and `response.body` (empty string when
the body is null). -/
structure Response where
  status : Nat
  error_code : Nat
  body : String
deriving Repr, DecidableEq

/-- Character-list prefix test (structural helper for substring search). -/
def isPrefixChars : List Char → List Char → Bool
  | [], _ => true
  | _ :: _, [] => false
  | a :: as, b :: bs => a == b && isPrefixChars as bs

/-- Character-list substring test (structural helper for substring search). -/
def containsChars (pat : List Char) : List Char → Bool
  | [] => isPrefixChars pat []
  | c :: rest => isPrefixChars pat (c :: rest) || containsChars pat rest

/-- JS `s.includes(pat)`: `pat` occurs as a contiguous substring of `s`. -/
def includesStr (s pat : String) : Bool :=
  containsChars pat.data s.data

/-- `isTimeout` from the k6 scripts: status 0 (no response) or k6 error code
1050 (request timeout). -/
def isTimeoutResp (r : Response) : Bool :=
  r.status == 0 || r.error_code == 1050

/-- `isSuccess` from the k6 scripts: HTTP status 200 or 201. -/
def isSuccessResp (r : Response) : Bool :=
  r.status == 200 || r.status == 201

/-- The generic-error condition of the k6 scripts: `!isSuccess && !isTimeout`. -/
def isGenericErrorResp (r : Response) : Bool :=
  !isSuccessResp r && !isTimeoutResp r

/-- The S3 SlowDown condition: `response.body && response.body.includes("SlowDown")`
(JS truthiness of a string is non-emptiness). -/
def isSlowDownResp (r : Response) : Bool :=
  !(r.body == "") && includesStr r.body "SlowDown"

/-- The secondary S3-error condition (the `else if` branch): body truthy and
containing one of the storage-error markers. -/
def isS3OtherResp (r : Response) : Bool :=
  !(r.body == "") &&
    (includesStr r.body "S3" || includesStr r.body "ServiceUnavailable" ||
      includesStr r.body "InternalError")

/-! ## Load driver: counters, latches and the iteration body -/

/-- The module-level mutable state of a k6 load-test script: the custom
counters and the three breakpoint latches (`null` = unset). -/
structure DriverState where
  totalRequests : Nat
  totalErrors : Nat
  timeoutErrors : Nat
  s3SlowDownErrors : Nat
  s3Errors : Nat
  greendotUpdates : Nat
  chatApiSuccessCount : Nat
  firstTimeoutIteration : Option Nat
  firstErrorIteration : Option Nat
  firstS3SlowDownIteration : Option Nat
deriving Repr, DecidableEq

/-- All counters zero, all latches unset: the state before the first iteration. -/
def initState : DriverState :=
  ⟨0, 0, 0, 0, 0, 0, 0, none, none, none⟩

/-- `if (latch === null) latch = iterationId` — the write-once latch update. -/
def latchFirst (latch : Option Nat) (iterationId : Nat) : Option Nat :=
  match latch with
  | none => some iterationId
  | some j => some j

/-- The classification and tracking section of the k6 iteration body
(`export default function`), shared verbatim by both load-test scripts:
count the request, classify it, update counters and latch first occurrences. -/
def processResponse (st : DriverState) (iterationId : Nat) (r : Response) : DriverState :=
  let st := { st with totalRequests := st.totalRequests + 1 }
  let st := { st with
    chatApiSuccessCount := st.chatApiSuccessCount + (if isSuccessResp r then 1 else 0) }
  let st := if isSuccessResp r then
      { st with greendotUpdates := st.greendotUpdates + 1 }
    else st
  let st := if isTimeoutResp r then
      { st with
        timeoutErrors := st.timeoutErrors + 1
        totalErrors := st.totalErrors + 1
        firstTimeoutIteration := latchFirst st.firstTimeoutIteration iterationId }
    else st
  let st := if !isSuccessResp r && !isTimeoutResp r then
      { st with
        totalErrors := st.totalErrors + 1
        firstErrorIteration := latchFirst st.firstErrorIteration iterationId }
    else st
  let st := if isSlowDownResp r then
      { st with
        s3SlowDownErrors := st.s3SlowDownErrors + 1
        s3Errors := st.s3Errors + 1
        firstS3SlowDownIteration := latchFirst st.firstS3SlowDownIteration iterationId }
    else if isS3OtherResp r then
      { st with s3Errors := st.s3Errors + 1 }
    else st
  st

/-- A whole run: fold the iteration body over the sequence of
(iteration index, response) pairs, in arrival order. -/
def runDriver (st : DriverState) (pairs : List (Nat × Response)) : DriverState :=
  pairs.foldl (fun s p => processResponse s p.1 p.2) st

/-- The iteration index of the first pair whose response satisfies `p`
(`none` when no pair does). -/
def firstOcc (p : Response → Bool) (pairs : List (Nat × Response)) : Option Nat :=
  ((pairs.filter fun x => p x.2).head?).map Prod.fst

/-! ### Field-update lemmas for the iteration body -/

theorem processResponse_firstTimeout (st : DriverState) (i : Nat) (r : Response) :
    (processResponse st i r).firstTimeoutIteration =
      if isTimeoutResp r then latchFirst st.firstTimeoutIteration i
      else st.firstTimeoutIteration := by
  cases ht : isTimeoutResp r <;> cases hs : isSuccessResp r <;>
    cases hd : isSlowDownResp r <;> cases ho : isS3OtherResp r <;>
      simp [processResponse, ht, hs, hd, ho]

theorem processResponse_firstError (st : DriverState) (i : Nat) (r : Response) :
    (processResponse st i r).firstErrorIteration =
      if isGenericErrorResp r then latchFirst st.firstErrorIteration i
      else st.firstErrorIteration := by
  cases ht : isTimeoutResp r <;> cases hs : isSuccessResp r <;>
    cases hd : isSlowDownResp r <;> cases ho : isS3OtherResp r <;>
      simp [processResponse, isGenericErrorResp, ht, hs, hd, ho]

theorem processResponse_firstS3 (st : DriverState) (i : Nat) (r : Response) :
    (processResponse st i r).firstS3SlowDownIteration =
      if isSlowDownResp r then latchFirst st.firstS3SlowDownIteration i
      else st.firstS3SlowDownIteration := by
  cases ht : isTimeoutResp r <;> cases hs : isSuccessResp r <;>
    cases hd : isSlowDownResp r <;> cases ho : isS3OtherResp r <;>
      simp [processResponse, ht, hs, hd, ho]

theorem latchFirst_eq_or (latch : Option Nat) (i : Nat) :
    latchFirst latch i = latch.or (some i) := by
  cases latch <;> rfl

theorem run_firstTimeout (pairs : List (Nat × Response)) (st : DriverState) :
    (runDriver st pairs).firstTimeoutIteration =
      st.firstTimeoutIteration.or (firstOcc isTimeoutResp pairs) := by
  induction pairs generalizing st with
  | nil => simp [runDriver, firstOcc]
  | cons hd tl ih =>
    simp only [runDriver, List.foldl_cons] at ih ⊢
    rw [ih, processResponse_firstTimeout]
    cases h : isTimeoutResp hd.2 <;>
      cases hl : st.firstTimeoutIteration <;>
        simp [firstOcc, latchFirst, h, hl, Option.or]

theorem run_firstError (pairs : List (Nat × Response)) (st : DriverState) :
    (runDriver st pairs).firstErrorIteration =
      st.firstErrorIteration.or (firstOcc isGenericErrorResp pairs) := by
  induction pairs generalizing st with
  | nil => simp [runDriver, firstOcc]
  | cons hd tl ih =>
    simp only [runDriver, List.foldl_cons] at ih ⊢
    rw [ih, processResponse_firstError]
    cases h : isGenericErrorResp hd.2 <;>
      cases hl : st.firstErrorIteration <;>
        simp [firstOcc, latchFirst, h, hl, Option.or]

theorem run_firstS3 (pairs : List (Nat × Response)) (st : DriverState) :
    (runDriver st pairs).firstS3SlowDownIteration =
      st.firstS3SlowDownIteration.or (firstOcc isSlowDownResp pairs) := by
  induction pairs generalizing st with
  | nil => simp [runDriver, firstOcc]
  | cons hd tl ih =>
    simp only [runDriver, List.foldl_cons] at ih ⊢
    rw [ih, processResponse_firstS3]
    cases h : isSlowDownResp hd.2 <;>
      cases hl : st.firstS3SlowDownIteration <;>
        simp [firstOcc, latchFirst, h, hl, Option.or]

/-- C1: each breakpoint latch (`firstTimeoutIteration`, `firstErrorIteration`,
`firstS3SlowDownIteration`) is write-once with first writer wins: starting from
any state, a run leaves an already-set latch unchanged (`Option.or` keeps the
left value), and from the unset initial state the latch ends holding exactly
the iteration index of the first occurrence of its condition — `none` after
zero occurrences, the first index after any positive number of occurrences,
with every later occurrence leaving the stored value unchanged. -/
theorem latch_records_first_occurrence_only
    (st : DriverState) (pairs : List (Nat × Response)) :
    (runDriver st pairs).firstTimeoutIteration =
        st.firstTimeoutIteration.or (firstOcc isTimeoutResp pairs)
      ∧ (runDriver st pairs).firstErrorIteration =
        st.firstErrorIteration.or (firstOcc isGenericErrorResp pairs)
      ∧ (runDriver st pairs).firstS3SlowDownIteration =
        st.firstS3SlowDownIteration.or (firstOcc isSlowDownResp pairs)
      ∧ (runDriver initState pairs).firstTimeoutIteration =
        firstOcc isTimeoutResp pairs
      ∧ (runDriver initState pairs).firstErrorIteration =
        firstOcc isGenericErrorResp pairs
      ∧ (runDriver initState pairs).firstS3SlowDownIteration =
        firstOcc isSlowDownResp pairs := by
  refine ⟨run_firstTimeout pairs st, run_firstError pairs st, run_firstS3 pairs st, ?_, ?_, ?_⟩
  · rw [run_firstTimeout]; rfl
  · rw [run_firstError]; rfl
  · rw [run_firstS3]; rfl

/-! ### Counter lemmas for the iteration body and for whole runs -/

theorem processResponse_totalRequests (st : DriverState) (i : Nat) (r : Response) :
    (processResponse st i r).totalRequests = st.totalRequests + 1 := by
  cases ht : isTimeoutResp r <;> cases hs : isSuccessResp r <;>
    cases hd : isSlowDownResp r <;> cases ho : isS3OtherResp r <;>
      simp [processResponse, ht, hs, hd, ho]

theorem processResponse_timeoutErrors (st : DriverState) (i : Nat) (r : Response) :
    (processResponse st i r).timeoutErrors =
      st.timeoutErrors + (if isTimeoutResp r then 1 else 0) := by
  cases ht : isTimeoutResp r <;> cases hs : isSuccessResp r <;>
    cases hd : isSlowDownResp r <;> cases ho : isS3OtherResp r <;>
      simp [processResponse, ht, hs, hd, ho]

theorem processResponse_totalErrors (st : DriverState) (i : Nat) (r : Response) :
    (processResponse st i r).totalErrors =
      st.totalErrors + (if isTimeoutResp r then 1 else 0)
        + (if isGenericErrorResp r then 1 else 0) := by
  cases ht : isTimeoutResp r <;> cases hs : isSuccessResp r <;>
    cases hd : isSlowDownResp r <;> cases ho : isS3OtherResp r <;>
      simp [processResponse, isGenericErrorResp, ht, hs, hd, ho]

theorem processResponse_s3Errors (st : DriverState) (i : Nat) (r : Response) :
    (processResponse st i r).s3Errors =
      st.s3Errors + (if isSlowDownResp r then 1 else if isS3OtherResp r then 1 else 0) := by
  cases ht : isTimeoutResp r <;> cases hs : isSuccessResp r <;>
    cases hd : isSlowDownResp r <;> cases ho : isS3OtherResp r <;>
      simp [processResponse, ht, hs, hd, ho]

theorem run_totalRequests (pairs : List (Nat × Response)) (st : DriverState) :
    (runDriver st pairs).totalRequests = st.totalRequests + pairs.length := by
  induction pairs generalizing st with
  | nil => simp [runDriver]
  | cons hd tl ih =>
    simp only [runDriver, List.foldl_cons, List.length_cons] at ih ⊢
    rw [ih, processResponse_totalRequests]
    omega

theorem run_timeoutErrors (pairs : List (Nat × Response)) (st : DriverState) :
    (runDriver st pairs).timeoutErrors =
      st.timeoutErrors + pairs.countP (fun p => isTimeoutResp p.2) := by
  induction pairs generalizing st with
  | nil => simp [runDriver]
  | cons hd tl ih =>
    simp only [runDriver, List.foldl_cons] at ih ⊢
    rw [ih, processResponse_timeoutErrors, List.countP_cons]
    cases h : isTimeoutResp hd.2 <;> (simp [h]; try omega)

theorem run_totalErrors (pairs : List (Nat × Response)) (st : DriverState) :
    (runDriver st pairs).totalErrors =
      st.totalErrors + pairs.countP (fun p => isTimeoutResp p.2)
        + pairs.countP (fun p => isGenericErrorResp p.2) := by
  induction pairs generalizing st with
  | nil => simp [runDriver]
  | cons hd tl ih =>
    simp only [runDriver, List.foldl_cons] at ih ⊢
    rw [ih, processResponse_totalErrors, List.countP_cons, List.countP_cons]
    cases h : isTimeoutResp hd.2 <;> cases h2 : isGenericErrorResp hd.2 <;>
      simp [h, h2] <;> omega

/-- Timeout and generic-error are mutually exclusive classifications. -/
theorem timeout_generic_exclusive (r : Response) :
    ¬(isTimeoutResp r = true ∧ isGenericErrorResp r = true) := by
  rintro ⟨h1, h2⟩
  simp [isGenericErrorResp, h1] at h2

theorem countP_two_disjoint_le_length (pairs : List (Nat × Response))
    (p q : Response → Bool) (hpq : ∀ r, ¬(p r = true ∧ q r = true)) :
    pairs.countP (fun x => p x.2) + pairs.countP (fun x => q x.2) ≤ pairs.length := by
  induction pairs with
  | nil => simp
  | cons hd tl ih =>
    rw [List.countP_cons, List.countP_cons, List.length_cons]
    cases h1 : p hd.2 <;> cases h2 : q hd.2 <;> simp [h1, h2] <;> try omega
    exact absurd ⟨h1, h2⟩ (hpq hd.2)

/-- C8: after any run of the load driver, `total_errors` is exactly
`timeout_errors` plus the number of responses classified generic-error
(neither success nor timeout); every single iteration raises `total_errors`
by at most one; and therefore `timeout_errors ≤ total_errors ≤ total_requests`
always holds at the end of a run. -/
theorem totalErrors_decomposition_and_bounds (pairs : List (Nat × Response)) :
    (runDriver initState pairs).totalErrors =
        (runDriver initState pairs).timeoutErrors
          + pairs.countP (fun p => isGenericErrorResp p.2)
      ∧ (∀ (st : DriverState) (i : Nat) (r : Response),
          (processResponse st i r).totalErrors ≤ st.totalErrors + 1)
      ∧ (runDriver initState pairs).timeoutErrors ≤ (runDriver initState pairs).totalErrors
      ∧ (runDriver initState pairs).totalErrors ≤ (runDriver initState pairs).totalRequests := by
  have hreq := run_totalRequests pairs initState
  have htim := run_timeoutErrors pairs initState
  have htot := run_totalErrors pairs initState
  have hdisj := countP_two_disjoint_le_length pairs isTimeoutResp isGenericErrorResp
    timeout_generic_exclusive
  refine ⟨by rw [htot, htim]; rfl, ?_, ?_, ?_⟩
  · intro st i r
    rw [processResponse_totalErrors]
    rcases Classical.em (isTimeoutResp r = true) with h | h
    · have : isGenericErrorResp r = false := by
        simp [isGenericErrorResp, h]
      simp [h, this]
    · simp only [Bool.not_eq_true] at h
      simp [h]
      split <;> omega
  · rw [htot, htim]
    simp only [initState]
    omega
  · rw [htot, hreq]
    simp only [initState, Nat.zero_add]
    exact hdisj

/-! ## C3: classification categories -/

theorem processResponse_s3SlowDownErrors (st : DriverState) (i : Nat) (r : Response) :
    (processResponse st i r).s3SlowDownErrors =
      st.s3SlowDownErrors + (if isSlowDownResp r then 1 else 0) := by
  cases ht : isTimeoutResp r <;> cases hs : isSuccessResp r <;>
    cases hd : isSlowDownResp r <;> cases ho : isS3OtherResp r <;>
      simp [processResponse, ht, hs, hd, ho]

/-- How many of the three categories success / timeout / generic-error hold
for one classified response. -/
def countCategories (r : Response) : Nat :=
  (if isSuccessResp r then 1 else 0) + (if isTimeoutResp r then 1 else 0)
    + (if isGenericErrorResp r then 1 else 0)

/-- C3 counterexample: a response with status 200 and k6 error code 1050
satisfies both `isSuccess` (status is 200) and `isTimeout` (error_code is
1050), so two of the three categories hold — the claimed mutual exclusivity
fails for this combination of status and error_code. -/
theorem classification_not_exclusive_at_200_1050 :
    countCategories ⟨200, 1050, ""⟩ = 2
      ∧ isSuccessResp ⟨200, 1050, ""⟩ = true
      ∧ isTimeoutResp ⟨200, 1050, ""⟩ = true := by
  refine ⟨?_, ?_, ?_⟩ <;> decide

/-- C3 (amended): for every response that does not combine a 2xx success
status with the k6 timeout error code 1050, exactly one of the three
categories success / timeout / generic-error holds; and regardless of the
response, the rate-limit (`SlowDown`) and storage-error overlays never
increment the same counter twice in one iteration: each of `s3_errors_total`,
`s3_slowdown_errors` and `total_errors` grows by at most one per response. -/
theorem classification_exclusive_and_overlays
    (r : Response) (st : DriverState) (i : Nat)
    (h : ¬(isSuccessResp r = true ∧ r.error_code = 1050)) :
    countCategories r = 1
      ∧ (processResponse st i r).s3Errors ≤ st.s3Errors + 1
      ∧ (processResponse st i r).s3SlowDownErrors ≤ st.s3SlowDownErrors + 1
      ∧ (processResponse st i r).totalErrors ≤ st.totalErrors + 1 := by
  refine ⟨?_, ?_, ?_, ?_⟩
  · cases hs : isSuccessResp r with
    | true =>
      have hst : r.status = 200 ∨ r.status = 201 := by
        simpa [isSuccessResp] using hs
      have hne : r.error_code ≠ 1050 := fun hec => h ⟨hs, hec⟩
      have ht : isTimeoutResp r = false := by
        simp only [isTimeoutResp, Bool.or_eq_false_iff, beq_eq_false_iff_ne]
        exact ⟨by omega, hne⟩
      simp [countCategories, isGenericErrorResp, hs, ht]
    | false =>
      cases ht : isTimeoutResp r with
      | true => simp [countCategories, isGenericErrorResp, hs, ht]
      | false => simp [countCategories, isGenericErrorResp, hs, ht]
  · rw [processResponse_s3Errors]
    split <;> [omega; split <;> omega]
  · rw [processResponse_s3SlowDownErrors]
    split <;> omega
  · rw [processResponse_totalErrors]
    rcases Classical.em (isTimeoutResp r = true) with ht | ht
    · have hg : isGenericErrorResp r = false := by simp [isGenericErrorResp, ht]
      simp [ht, hg]
    · simp only [Bool.not_eq_true] at ht
      simp [ht]
      split <;> omega

/-- C3 witness: a generic 500 error with no timeout code is classified into
exactly one category, and one iteration moves each overlay counter by at
most one. -/
theorem classification_exclusive_and_overlays_witness :
    countCategories ⟨500, 0, ""⟩ = 1
      ∧ (processResponse initState 0 ⟨500, 0, ""⟩).s3Errors ≤ initState.s3Errors + 1
      ∧ (processResponse initState 0 ⟨500, 0, ""⟩).s3SlowDownErrors ≤
          initState.s3SlowDownErrors + 1
      ∧ (processResponse initState 0 ⟨500, 0, ""⟩).totalErrors ≤ initState.totalErrors + 1 :=
  classification_exclusive_and_overlays ⟨500, 0, ""⟩ initState 0 (by decide)

/-! ## C4: the derived error/timeout rates of the breakpoint report -/

/-- A JavaScript number as it can appear in the rate computation: an ordinary
(rational) value, NaN (from `0/0`), or Infinity (from `x/0` with `x > 0`). -/
inductive JsNum where
  | num (q : ℚ)
  | nan
  | inf
deriving Repr, DecidableEq

/-- JS division of two non-negative counter values: `e / r`. -/
def jsDiv (e r : Nat) : JsNum :=
  if r = 0 then (if e = 0 then .nan else .inf) else .num ((e : ℚ) / r)

/-- Multiplication by 100 (NaN and Infinity absorb). -/
def jsMul100 : JsNum → JsNum
  | .num q => .num (q * 100)
  | .nan => .nan
  | .inf => .inf

/-- The `|| 0` guard: NaN (and a falsy 0) becomes 0, everything else is kept. -/
def jsOrZero : JsNum → JsNum
  | .nan => .num 0
  | x => x

/-- `chat-load-test.js` line 210/211:
`count / count * 100 || 0` — the percentage printed in the breakpoint report. -/
def ratePct (errors requests : Nat) : JsNum :=
  jsOrZero (jsMul100 (jsDiv errors requests))

/-- `single-room-load-test.js` lines 206/207:
`totalReqs > 0 ? (totalErrs / totalReqs * 100) : 0`. -/
def ratePctSingle (errors requests : Nat) : ℚ :=
  if requests > 0 then ((errors : ℚ) / requests) * 100 else 0

/-- Modelled from the spec: the derived rate `errors / requests`, defined as
0 when `requests = 0`; stated for comparison with the percentages the code computes. -/
def specRate (errors requests : Nat) : ℚ :=
  if requests = 0 then 0 else (errors : ℚ) / requests

theorem ratePct_eq_specRate (e r : Nat) (h : e ≤ r) :
    ratePct e r = JsNum.num (specRate e r * 100)
      ∧ ratePctSingle e r = specRate e r * 100 := by
  rcases Nat.eq_zero_or_pos r with hr | hr
  · have he : e = 0 := by omega
    subst hr he
    refine ⟨?_, ?_⟩ <;> simp [ratePct, ratePctSingle, specRate, jsDiv, jsMul100, jsOrZero]
  · have hne : r ≠ 0 := by omega
    refine ⟨?_, ?_⟩ <;>
      simp [ratePct, ratePctSingle, specRate, jsDiv, jsMul100, jsOrZero, hne, hr]

theorem specRate_mem_unit (e r : Nat) (h : e ≤ r) :
    0 ≤ specRate e r ∧ specRate e r ≤ 1 := by
  rcases Nat.eq_zero_or_pos r with hr | hr
  · subst hr; simp [specRate]
  · have hne : r ≠ 0 := by omega
    have hr0 : (0 : ℚ) < r := by exact_mod_cast hr
    constructor
    · simp only [specRate, if_neg hne]
      positivity
    · simp only [specRate, if_neg hne]
      rw [div_le_one hr0]
      exact_mod_cast h

/-- C4: in the end-of-run breakpoint report of both load-test scripts, the
computed error-rate and timeout-rate percentages are exactly 100 times the
rates `total_errors / total_requests` and `timeout_errors / total_requests`;
those rates always lie in [0, 1]; and when `total_requests` is 0 both
reported percentages are exactly 0 — the `|| 0` guard (chat script) and the
`totalReqs > 0` guard (single-room script) keep the division by zero from
surfacing. -/
theorem breakpoint_report_rates (pairs : List (Nat × Response)) :
    ratePct (runDriver initState pairs).totalErrors (runDriver initState pairs).totalRequests
        = JsNum.num (specRate (runDriver initState pairs).totalErrors
            (runDriver initState pairs).totalRequests * 100)
      ∧ ratePct (runDriver initState pairs).timeoutErrors
            (runDriver initState pairs).totalRequests
        = JsNum.num (specRate (runDriver initState pairs).timeoutErrors
            (runDriver initState pairs).totalRequests * 100)
      ∧ ratePctSingle (runDriver initState pairs).totalErrors
            (runDriver initState pairs).totalRequests
        = specRate (runDriver initState pairs).totalErrors
            (runDriver initState pairs).totalRequests * 100
      ∧ ratePctSingle (runDriver initState pairs).timeoutErrors
            (runDriver initState pairs).totalRequests
        = specRate (runDriver initState pairs).timeoutErrors
            (runDriver initState pairs).totalRequests * 100
      ∧ 0 ≤ specRate (runDriver initState pairs).totalErrors
            (runDriver initState pairs).totalRequests
      ∧ specRate (runDriver initState pairs).totalErrors
            (runDriver initState pairs).totalRequests ≤ 1
      ∧ 0 ≤ specRate (runDriver initState pairs).timeoutErrors
            (runDriver initState pairs).totalRequests
      ∧ specRate (runDriver initState pairs).timeoutErrors
            (runDriver initState pairs).totalRequests ≤ 1
      ∧ ((runDriver initState pairs).totalRequests = 0 →
          ratePct (runDriver initState pairs).totalErrors
              (runDriver initState pairs).totalRequests = JsNum.num 0
            ∧ ratePctSingle (runDriver initState pairs).totalErrors
              (runDriver initState pairs).totalRequests = 0
            ∧ ratePct (runDriver initState pairs).timeoutErrors
              (runDriver initState pairs).totalRequests = JsNum.num 0
            ∧ ratePctSingle (runDriver initState pairs).timeoutErrors
              (runDriver initState pairs).totalRequests = 0) := by
  have hreq := run_totalRequests pairs initState
  have htim := run_timeoutErrors pairs initState
  have htot := run_totalErrors pairs initState
  have hdisj := countP_two_disjoint_le_length pairs isTimeoutResp isGenericErrorResp
    timeout_generic_exclusive
  have hcount : pairs.countP (fun p => isTimeoutResp p.2) ≤ pairs.length :=
    List.countP_le_length _
  have he : (runDriver initState pairs).totalErrors ≤ (runDriver initState pairs).totalRequests := by
    rw [htot, hreq]; simp only [initState]; omega
  have ht : (runDriver initState pairs).timeoutErrors ≤
      (runDriver initState pairs).totalRequests := by
    rw [htim, hreq]; simp only [initState]; omega
  obtain ⟨he1, he2⟩ := ratePct_eq_specRate _ _ he
  obtain ⟨ht1, ht2⟩ := ratePct_eq_specRate _ _ ht
  obtain ⟨he3, he4⟩ := specRate_mem_unit _ _ he
  obtain ⟨ht3, ht4⟩ := specRate_mem_unit _ _ ht
  refine ⟨he1, ht1, he2, ht2, he3, he4, ht3, ht4, fun h0 => ?_⟩
  have hz1 : specRate (runDriver initState pairs).totalErrors
      (runDriver initState pairs).totalRequests = 0 := by simp [specRate, h0]
  have hz2 : specRate (runDriver initState pairs).timeoutErrors
      (runDriver initState pairs).totalRequests = 0 := by simp [specRate, h0]
  refine ⟨?_, ?_, ?_, ?_⟩
  · rw [he1, hz1]; norm_num
  · rw [he2, hz1]; norm_num
  · rw [ht1, hz2]; norm_num
  · rw [ht2, hz2]; norm_num

/-- C4 witness: the empty run has zero requests and both reported
percentages equal exactly 0. -/
theorem breakpoint_report_rates_witness :
    (runDriver initState []).totalRequests = 0
      ∧ ratePct (runDriver initState []).totalErrors
          (runDriver initState []).totalRequests = JsNum.num 0
      ∧ ratePctSingle (runDriver initState []).totalErrors
          (runDriver initState []).totalRequests = 0
      ∧ ratePct (runDriver initState []).timeoutErrors
          (runDriver initState []).totalRequests = JsNum.num 0
      ∧ ratePctSingle (runDriver initState []).timeoutErrors
          (runDriver initState []).totalRequests = 0 := by
  have h := (breakpoint_report_rates []).2.2.2.2.2.2.2.2 rfl
  exact ⟨rfl, h.1, h.2.1, h.2.2.1, h.2.2.2⟩

/-! ## Metrics checker: data model (`checkOpenSearchMetrics.ts`) -/

/-- One row of `cat.threadPool` as used by the checker (numeric fields after
`parseInt`). -/
structure ThreadPool where
  name : String
  rejected : Nat
  queue : Nat
  queue_size : Nat
deriving Repr, DecidableEq

/-- The per-node fields of `nodes.stats` read by the checker. -/
structure NodeStat where
  name : String
  heap_used_percent : ℚ
  cpu_percent : ℚ
  old_gc_collection_count : Nat
deriving Repr, DecidableEq

/-- The cluster-health fields read by the checker. -/
structure ClusterHealth where
  status : String
  number_of_nodes : Nat
deriving Repr, DecidableEq

/-- The per-index totals read by the checker (indexing and refresh groups). -/
structure IndexStatsResult where
  index_total : Nat
  index_time_in_millis : Nat
  refresh_total : Nat
  refresh_total_time_in_millis : Nat
deriving Repr, DecidableEq

/-- The record returned by `checkActiveTasks` (the stored task sample is kept
as plain descriptions). -/
structure ActiveTasksResult where
  total : Nat
  searchTasks : Nat
  longRunning5s : Nat
  longRunning10s : Nat
  longRunning30s : Nat
  tasks : List String
deriving Repr, DecidableEq

/-- The record returned by `checkCircuitBreakerStatus` (per-node breaker dumps
kept as plain node names). -/
structure CircuitBreakerResult where
  nodes : List String
  totalTrips : Nat
deriving Repr, DecidableEq

/-- The record returned by `checkCacheMetrics`. -/
structure CacheMetricsResult where
  queryCacheEvictions : Nat
  fieldDataEvictions : Nat
  nodes : List String
deriving Repr, DecidableEq

/-- The record returned by `checkSegmentStats`. -/
structure SegmentStatsResult where
  count : Nat
  memoryInBytes : Nat
deriving Repr, DecidableEq

/-- The record returned by `checkQueueMetrics`. -/
structure QueueMetricsResult where
  maxSaturation : ℚ
  poolData : List ThreadPool
deriving Repr, DecidableEq

/-- The record returned by `checkHotThreads`. -/
structure HotThreadsResult where
  summary : String
deriving Repr, DecidableEq

/-- JS `x.toFixed(2)` followed by `parseFloat`, for non-negative `x`:
round to 2 decimal places, ties away from zero. -/
def toFixed2 (x : ℚ) : ℚ :=
  (Int.floor (x * 100 + 1 / 2) : ℚ) / 100

/-- JS `x.toFixed(0)` for non-negative `x`: round to the nearest integer,
ties away from zero. -/
def toFixed0 (x : ℚ) : ℤ :=
  Int.floor (x + 1 / 2)

/-- One formatted line pushed into `critical_issues` or `warnings` by
`analyzeCriticalIssues`; each constructor corresponds to one `push` site,
carrying the numbers interpolated into the message. -/
inductive Entry where
  | clusterRed
  | clusterYellow
  | poolRejectedIssue (name : String) (rejected : Nat)
  | poolQueueFullWarn (name : String) (pct : ℤ)
  | heapCritical (node : String) (pct : ℚ)
  | heapHigh (node : String) (pct : ℚ)
  | cpuCritical (node : String) (pct : ℚ)
  | cpuHigh (node : String) (pct : ℚ)
  | oldGCWarn (node : String) (count : Nat)
  | refreshCritical (ms : ℚ)
  | refreshWarn (ms : ℚ)
  | pendingTasksWarn (count : Nat)
  | longRunning30sIssue (count : Nat)
  | longRunning10sWarn (count : Nat)
  | longRunning5sWarn (count : Nat)
  | breakerTrippedIssue (count : Nat)
  | satCriticalIssue (pct : ℚ)
  | satWarn (pct : ℚ)
  | segGreenDotWarn (count : Nat)
  | segUserRoomsWarn (count : Nat)
  | queryCacheEvictionsWarn (count : Nat)
  | fieldDataEvictionsWarn (count : Nat)
deriving Repr, DecidableEq

/-- The `summary` block of a metrics snapshot. -/
structure Summary where
  critical_issues : List Entry
  warnings : List Entry
  health_status : String
  active_searches : Nat
  long_running_queries_5s : Nat
  long_running_queries_10s : Nat
  long_running_queries_30s : Nat
  circuit_breaker_trips : Nat
  search_queue_saturation_pct : ℚ
deriving Repr, DecidableEq

/-- The summary `runFullCheck` starts every cycle with. -/
def initialSummary : Summary :=
  ⟨[], [], "unknown", 0, 0, 0, 0, 0, 0⟩

/-- A metrics snapshot (`MetricsResult` in the source). Fields that the
individually-guarded fetches can leave unavailable are `Option`s
(`none` = `null`); `activeTasks`, `circuitBreakerStatus`, `cacheMetrics` and
`queueMetrics` are `Option`s because the TypeScript type allows `null` there,
although their fetch helpers catch errors and return default records. -/
structure MetricsResult where
  timestamp : String
  clusterHealth : ClusterHealth
  threadPoolStats : List ThreadPool
  nodeStats : List NodeStat
  indexStats : Option IndexStatsResult
  indexStatsUserRooms : Option IndexStatsResult
  clusterStats : Option Unit
  pendingTasks : List Unit
  activeTasks : Option ActiveTasksResult
  circuitBreakerStatus : Option CircuitBreakerResult
  cacheMetrics : Option CacheMetricsResult
  segmentStats : Option SegmentStatsResult
  segmentStatsUserRooms : Option SegmentStatsResult
  queueMetrics : Option QueueMetricsResult
  hotThreads : HotThreadsResult
  summary : Summary
deriving Repr, DecidableEq

/-! ## Metrics checker: queue saturation and console annotations -/

/-- The pools inspected by `checkQueueMetrics`. -/
def queuePoolNames : List String := ["write", "bulk", "search", "get"]

/-- Per-pool saturation of `checkQueueMetrics`:
`queueSize > 0 ? ((queueDepth / queueSize) * 100).toFixed(2) : "0"`,
read back with `parseFloat`. -/
def poolSaturation (p : ThreadPool) : ℚ :=
  if p.queue_size > 0 then toFixed2 (((p.queue : ℚ) / (p.queue_size : ℚ)) * 100) else 0

/-- `checkQueueMetrics`: filter the rows to the four queue pools and take the
running maximum of the per-pool saturation percentages, starting from 0. -/
def checkQueueMetrics (stats : List ThreadPool) : QueueMetricsResult :=
  let poolData := stats.filter (fun p => queuePoolNames.contains p.name)
  let maxSaturation := queuePoolNames.foldl (fun m nm =>
    (poolData.filter (fun p => p.name == nm)).foldl (fun m2 p => max m2 (poolSaturation p)) m) 0
  ⟨maxSaturation, poolData⟩

/-- The per-node heap console annotation of `checkNodeStats` line 161:
`heapUsedPercent > 75 ... : heapUsedPercent > 85 ... : empty`. -/
def heapWarningMarker (heapUsedPercent : ℚ) : String :=
  if heapUsedPercent > 75 then " ⚠️ HIGH"
  else if heapUsedPercent > 85 then " 🔴 CRITICAL"
  else ""

/-- The per-node CPU console annotation of `checkNodeStats` line 174:
`cpuPercent > 80 ... : cpuPercent > 90 ... : empty`. -/
def cpuWarningMarker (cpuPercent : ℚ) : String :=
  if cpuPercent > 80 then " ⚠️ HIGH"
  else if cpuPercent > 90 then " 🔴 CRITICAL"
  else ""

/-! ## Metrics checker: the issue classifier -/

/-- Average refresh latency as computed in `analyzeCriticalIssues`:
`refresh.total > 0 ? total_time_in_millis / total : 0`. -/
def avgRefreshTime (s : IndexStatsResult) : ℚ :=
  if s.refresh_total > 0 then (s.refresh_total_time_in_millis : ℚ) / (s.refresh_total : ℚ)
  else 0

/-- `analyzeCriticalIssues`: evaluate the snapshot against the fixed threshold
rules, producing the ordered `critical_issues` / `warnings` lists and the new
summary (in the source the summary is mutated in place and then rebuilt at the
end of the function; here the rebuilt summary is returned). -/
def analyzeCriticalIssues (metrics : MetricsResult) : Summary :=
  let healthIssues : List Entry :=
    if metrics.clusterHealth.status = "red" then [.clusterRed] else []
  let healthWarnings : List Entry :=
    if metrics.clusterHealth.status = "red" then []
    else if metrics.clusterHealth.status = "yellow" then [.clusterYellow] else []
  let poolIssues := metrics.threadPoolStats.flatMap (fun p =>
    if p.rejected > 0 then [Entry.poolRejectedIssue p.name p.rejected] else [])
  let poolWarnings := metrics.threadPoolStats.flatMap (fun p =>
    if p.queue_size > 0 ∧ (p.queue : ℚ) > (p.queue_size : ℚ) * ((8 : ℚ) / 10) then
      [Entry.poolQueueFullWarn p.name (toFixed0 (((p.queue : ℚ) / (p.queue_size : ℚ)) * 100))]
    else [])
  let nodeIssues := metrics.nodeStats.flatMap (fun n =>
    (if n.heap_used_percent > 85 then [Entry.heapCritical n.name n.heap_used_percent] else [])
      ++ (if n.cpu_percent > 90 then [Entry.cpuCritical n.name n.cpu_percent] else []))
  let nodeWarnings := metrics.nodeStats.flatMap (fun n =>
    (if n.heap_used_percent > 85 then []
     else if n.heap_used_percent > 75 then [Entry.heapHigh n.name n.heap_used_percent] else [])
      ++ (if n.cpu_percent > 90 then []
          else if n.cpu_percent > 80 then [Entry.cpuHigh n.name n.cpu_percent] else [])
      ++ (if n.old_gc_collection_count > 10 then
            [Entry.oldGCWarn n.name n.old_gc_collection_count] else []))
  let refreshIssues := match metrics.indexStats with
    | some s => if avgRefreshTime s > 100 then [Entry.refreshCritical (avgRefreshTime s)] else []
    | none => []
  let refreshWarnings := match metrics.indexStats with
    | some s =>
        if avgRefreshTime s > 100 then []
        else if avgRefreshTime s > 50 then [Entry.refreshWarn (avgRefreshTime s)] else []
    | none => []
  let pendingWarnings :=
    if metrics.pendingTasks.length > 10 then
      [Entry.pendingTasksWarn metrics.pendingTasks.length] else []
  let lrIssues := match metrics.activeTasks with
    | some t => if t.longRunning30s > 0 then [Entry.longRunning30sIssue t.longRunning30s] else []
    | none => []
  let lrWarnings := match metrics.activeTasks with
    | some t =>
        (if t.longRunning10s > 0 then [Entry.longRunning10sWarn t.longRunning10s] else [])
          ++ (if t.longRunning5s > 5 then [Entry.longRunning5sWarn t.longRunning5s] else [])
    | none => []
  let s1 := match metrics.activeTasks with
    | some t => { metrics.summary with
        active_searches := t.searchTasks
        long_running_queries_5s := t.longRunning5s
        long_running_queries_10s := t.longRunning10s
        long_running_queries_30s := t.longRunning30s }
    | none => metrics.summary
  let breakerIssues := match metrics.circuitBreakerStatus with
    | some cb => if cb.totalTrips > 0 then [Entry.breakerTrippedIssue cb.totalTrips] else []
    | none => []
  let s2 := match metrics.circuitBreakerStatus with
    | some cb =>
        if cb.totalTrips > 0 then { s1 with circuit_breaker_trips := cb.totalTrips } else s1
    | none => s1
  let satIssues := match metrics.queueMetrics with
    | some qm => if qm.maxSaturation > 80 then [Entry.satCriticalIssue qm.maxSaturation] else []
    | none => []
  let satWarnings := match metrics.queueMetrics with
    | some qm =>
        if qm.maxSaturation > 80 then []
        else if qm.maxSaturation > 50 then [Entry.satWarn qm.maxSaturation] else []
    | none => []
  let s3 := match metrics.queueMetrics with
    | some qm =>
        if qm.maxSaturation > 80 then { s2 with search_queue_saturation_pct := qm.maxSaturation }
        else if qm.maxSaturation > 50 then
          { s2 with search_queue_saturation_pct := qm.maxSaturation }
        else s2
    | none => s2
  let segWarnings :=
    (match metrics.segmentStats with
      | some s => if s.count > 500 then [Entry.segGreenDotWarn s.count] else []
      | none => [])
    ++ (match metrics.segmentStatsUserRooms with
      | some s => if s.count > 500 then [Entry.segUserRoomsWarn s.count] else []
      | none => [])
  let cacheWarnings := match metrics.cacheMetrics with
    | some c =>
        (if c.queryCacheEvictions > 10000 then
          [Entry.queryCacheEvictionsWarn c.queryCacheEvictions] else [])
          ++ (if c.fieldDataEvictions > 1000 then
            [Entry.fieldDataEvictionsWarn c.fieldDataEvictions] else [])
    | none => []
  { critical_issues := healthIssues ++ poolIssues ++ nodeIssues ++ refreshIssues
      ++ lrIssues ++ breakerIssues ++ satIssues
    warnings := healthWarnings ++ poolWarnings ++ nodeWarnings ++ refreshWarnings
      ++ pendingWarnings ++ lrWarnings ++ satWarnings ++ segWarnings ++ cacheWarnings
    health_status := metrics.clusterHealth.status
    active_searches := s3.active_searches
    long_running_queries_5s := s3.long_running_queries_5s
    long_running_queries_10s := s3.long_running_queries_10s
    long_running_queries_30s := s3.long_running_queries_30s
    circuit_breaker_trips := s3.circuit_breaker_trips
    search_queue_saturation_pct := s3.search_queue_saturation_pct }

/-! ## Metrics checker: the fetch pipeline (`runFullCheck`) -/

/-- The outcomes the cluster API hands to one poll cycle: each field is the
result of one fetch, `Except.error` meaning the underlying call threw. -/
structure ApiResults where
  clusterHealth : Except Unit ClusterHealth
  threadPools : Except Unit (List ThreadPool)
  nodeStats : Except Unit (List NodeStat)
  indexStatsGreenDot : Except Unit (Option IndexStatsResult)
  indexStatsUserRooms : Except Unit (Option IndexStatsResult)
  indexSettingsGreenDot : Except Unit Unit
  indexSettingsUserRooms : Except Unit Unit
  clusterSettings : Except Unit Unit
  pendingTasks : Except Unit (List Unit)
  activeTasks : Except Unit ActiveTasksResult
  circuitBreakers : Except Unit CircuitBreakerResult
  cacheMetrics : Except Unit CacheMetricsResult
  segmentsGreenDot : Except Unit (Option SegmentStatsResult)
  segmentsUserRooms : Except Unit (Option SegmentStatsResult)
  queueThreadPools : Except Unit (List ThreadPool)
  hotThreads : Except Unit String

/-- `runFullCheck`: run the fetches in source order. `checkClusterHealth`,
`checkThreadPools`, `checkNodeStats`, `checkClusterSettings` and
`checkPendingTasks` have no internal try/catch, so their failures propagate to
the surrounding catch, which rethrows (`Except.error`). `checkIndexStats`,
`checkIndexSettings`, `checkActiveTasks`, `checkCircuitBreakerStatus`,
`checkCacheMetrics`, `checkSegmentStats`, `checkQueueMetrics` and
`checkHotThreads` catch their own errors and return `null` or a default
record. At the end `analyzeCriticalIssues` recomputes the summary. -/
def runFullCheck (timestamp : String) (api : ApiResults) : Except Unit MetricsResult := do
  let clusterHealth ← api.clusterHealth
  let threadPoolStats ← api.threadPools
  let nodeStats ← api.nodeStats
  let indexStats : Option IndexStatsResult :=
    match api.indexStatsGreenDot with | .ok v => v | .error _ => none
  let indexStatsUserRooms : Option IndexStatsResult :=
    match api.indexStatsUserRooms with | .ok v => v | .error _ => none
  let _settingsGreenDot : Option Unit :=
    match api.indexSettingsGreenDot with | .ok v => some v | .error _ => none
  let _settingsUserRooms : Option Unit :=
    match api.indexSettingsUserRooms with | .ok v => some v | .error _ => none
  let clusterStats ← api.clusterSettings
  let pendingTasks ← api.pendingTasks
  let activeTasks : Option ActiveTasksResult :=
    some (match api.activeTasks with | .ok v => v | .error _ => ⟨0, 0, 0, 0, 0, []⟩)
  let circuitBreakerStatus : Option CircuitBreakerResult :=
    some (match api.circuitBreakers with | .ok v => v | .error _ => ⟨[], 0⟩)
  let cacheMetrics : Option CacheMetricsResult :=
    some (match api.cacheMetrics with | .ok v => v | .error _ => ⟨0, 0, []⟩)
  let segmentStats : Option SegmentStatsResult :=
    match api.segmentsGreenDot with | .ok v => v | .error _ => none
  let segmentStatsUserRooms : Option SegmentStatsResult :=
    match api.segmentsUserRooms with | .ok v => v | .error _ => none
  let queueMetrics : Option QueueMetricsResult :=
    some (match api.queueThreadPools with
      | .ok pools => checkQueueMetrics pools
      | .error _ => ⟨0, []⟩)
  let hotThreads : HotThreadsResult :=
    match api.hotThreads with | .ok s => ⟨s⟩ | .error _ => ⟨"Not available"⟩
  let metrics : MetricsResult :=
    { timestamp, clusterHealth, threadPoolStats, nodeStats, indexStats, indexStatsUserRooms
      clusterStats := some clusterStats
      pendingTasks, activeTasks, circuitBreakerStatus, cacheMetrics
      segmentStats, segmentStatsUserRooms, queueMetrics, hotThreads
      summary := initialSummary }
  pure { metrics with summary := analyzeCriticalIssues metrics }

/-! ## Metrics checker: CSV flattening (`saveSummaryCSV`) -/

/-- One appended row of `metrics-summary.csv`, as a record with the documented
column order. -/
structure SummaryCsvRow where
  timestamp : String
  cluster_status : String
  active_nodes : Nat
  pending_tasks : Nat
  write_rejections : Nat
  bulk_rejections : Nat
  search_rejections : Nat
  jvm_memory_percent : ℚ
  cpu_percent : ℚ
  avg_refresh_time_ms : ℚ
  indexing_rate : ℚ
  critical_issues_count : Nat
  warnings_count : Nat
  active_searches : Nat
  long_running_queries_5s : Nat
  long_running_queries_10s : Nat
  long_running_queries_30s : Nat
  circuit_breaker_trips : Nat
  search_queue_saturation_pct : ℚ
  segment_count_pms_green_dot : Nat
  segment_count_pms_user_rooms : Nat
  query_cache_evictions : Nat
  field_data_evictions : Nat
deriving Repr, DecidableEq

/-- The row computed by `saveSummaryCSV`: optional chains with `|| 0`
defaults become `Option` projections with a 0 default; `firstNode` is
`metrics.nodeStats?.[0]`. -/
def saveSummaryCSVRow (metrics : MetricsResult) : SummaryCsvRow :=
  let writePool := metrics.threadPoolStats.find? (fun p => p.name == "write")
  let bulkPool := metrics.threadPoolStats.find? (fun p => p.name == "bulk")
  let searchPool := metrics.threadPoolStats.find? (fun p => p.name == "search")
  let firstNode := metrics.nodeStats.head?
  { timestamp := metrics.timestamp
    cluster_status := metrics.clusterHealth.status
    active_nodes := metrics.clusterHealth.number_of_nodes
    pending_tasks := metrics.pendingTasks.length
    write_rejections := (writePool.map ThreadPool.rejected).getD 0
    bulk_rejections := (bulkPool.map ThreadPool.rejected).getD 0
    search_rejections := (searchPool.map ThreadPool.rejected).getD 0
    jvm_memory_percent := (firstNode.map NodeStat.heap_used_percent).getD 0
    cpu_percent := (firstNode.map NodeStat.cpu_percent).getD 0
    avg_refresh_time_ms :=
      match metrics.indexStats with
      | some s =>
          if s.refresh_total > 0 then
            toFixed2 ((s.refresh_total_time_in_millis : ℚ) / (s.refresh_total : ℚ))
          else 0
      | none => 0
    indexing_rate :=
      match metrics.indexStats with
      | some s =>
          if s.index_time_in_millis ≠ 0 then
            toFixed2 ((s.index_total : ℚ) / ((s.index_time_in_millis : ℚ) / 1000))
          else 0
      | none => 0
    critical_issues_count := metrics.summary.critical_issues.length
    warnings_count := metrics.summary.warnings.length
    active_searches := metrics.summary.active_searches
    long_running_queries_5s := metrics.summary.long_running_queries_5s
    long_running_queries_10s := metrics.summary.long_running_queries_10s
    long_running_queries_30s := metrics.summary.long_running_queries_30s
    circuit_breaker_trips := metrics.summary.circuit_breaker_trips
    search_queue_saturation_pct := toFixed2 metrics.summary.search_queue_saturation_pct
    segment_count_pms_green_dot := ((metrics.segmentStats.map SegmentStatsResult.count).getD 0)
    segment_count_pms_user_rooms :=
      ((metrics.segmentStatsUserRooms.map SegmentStatsResult.count).getD 0)
    query_cache_evictions :=
      ((metrics.cacheMetrics.map CacheMetricsResult.queryCacheEvictions).getD 0)
    field_data_evictions :=
      ((metrics.cacheMetrics.map CacheMetricsResult.fieldDataEvictions).getD 0) }

/-! ## C9: the console CRITICAL markers are unreachable -/

/-- C9: the per-node console annotations of `checkNodeStats` never produce the
CRITICAL marker: the `> 75` heap test runs before the `> 85` test, so every
heap value above 85 already takes the HIGH branch; likewise the `> 80` CPU
test runs before `> 90`. -/
theorem critical_console_marker_unreachable (h c : ℚ) :
    heapWarningMarker h ≠ " 🔴 CRITICAL"
      ∧ (h > 85 → heapWarningMarker h = " ⚠️ HIGH")
      ∧ cpuWarningMarker c ≠ " 🔴 CRITICAL"
      ∧ (c > 90 → cpuWarningMarker c = " ⚠️ HIGH") := by
  refine ⟨?_, ?_, ?_, ?_⟩
  · by_cases h1 : h > 75
    · simp only [heapWarningMarker, if_pos h1]
      decide
    · have h2 : ¬ h > 85 := by
        intro hgt
        exact h1 (by linarith)
      simp only [heapWarningMarker, if_neg h1, if_neg h2]
      decide
  · intro hgt
    simp only [heapWarningMarker, if_pos (show h > 75 by linarith)]
  · by_cases h1 : c > 80
    · simp only [cpuWarningMarker, if_pos h1]
      decide
    · have h2 : ¬ c > 90 := by
        intro hgt
        exact h1 (by linarith)
      simp only [cpuWarningMarker, if_neg h1, if_neg h2]
      decide
  · intro hgt
    simp only [cpuWarningMarker, if_pos (show c > 80 by linarith)]

/-- C9 witness: heap at 90% and CPU at 95% — both above the nominal critical
thresholds — still get the HIGH marker, never CRITICAL. -/
theorem critical_console_marker_unreachable_witness :
    (90 : ℚ) > 85 ∧ heapWarningMarker 90 = " ⚠️ HIGH"
      ∧ (95 : ℚ) > 90 ∧ cpuWarningMarker 95 = " ⚠️ HIGH"
      ∧ heapWarningMarker 90 ≠ " 🔴 CRITICAL"
      ∧ cpuWarningMarker 95 ≠ " 🔴 CRITICAL" :=
  ⟨by norm_num,
   (critical_console_marker_unreachable 90 95).2.1 (by norm_num),
   by norm_num,
   (critical_console_marker_unreachable 90 95).2.2.2 (by norm_num),
   (critical_console_marker_unreachable 90 95).1,
   (critical_console_marker_unreachable 90 95).2.2.1⟩

/-! ## C10: the CSV heap/CPU columns come from the first node only -/

/-- A benign snapshot used as a base point for concrete scenarios: green
cluster, the given thread pools, nodes and cache counters, everything else
empty/absent, queue metrics computed from the same pool rows, initial
summary. -/
def baseSnapshot (pools : List ThreadPool) (nodes : List NodeStat)
    (cache : CacheMetricsResult) : MetricsResult :=
  { timestamp := "t"
    clusterHealth := ⟨"green", 1⟩
    threadPoolStats := pools
    nodeStats := nodes
    indexStats := none
    indexStatsUserRooms := none
    clusterStats := some ()
    pendingTasks := []
    activeTasks := some ⟨0, 0, 0, 0, 0, []⟩
    circuitBreakerStatus := some ⟨[], 0⟩
    cacheMetrics := some cache
    segmentStats := none
    segmentStatsUserRooms := none
    queueMetrics := some (checkQueueMetrics pools)
    hotThreads := ⟨"hot"⟩
    summary := initialSummary }

/-- C10: whenever the snapshot has at least one node, the
`jvm_memory_percent` and `cpu_percent` columns of the appended CSV row are
the heap and CPU percentages of the first node in the node-stats list —
whatever the remaining nodes report has no influence on either column. -/
theorem csv_heap_cpu_first_node_only (metrics : MetricsResult)
    (n : NodeStat) (rest : List NodeStat) (h : metrics.nodeStats = n :: rest) :
    (saveSummaryCSVRow metrics).jvm_memory_percent = n.heap_used_percent
      ∧ (saveSummaryCSVRow metrics).cpu_percent = n.cpu_percent := by
  constructor <;> simp [saveSummaryCSVRow, h]

/-- C10 witness: with a first node at 10% heap / 20% CPU and a second node at
99% heap / 98% CPU, the CSV row reports 10 and 20. -/
theorem csv_heap_cpu_first_node_only_witness :
    (baseSnapshot [] [⟨"n1", 10, 20, 0⟩, ⟨"n2", 99, 98, 0⟩] ⟨0, 0, []⟩).nodeStats =
        ⟨"n1", 10, 20, 0⟩ :: [⟨"n2", 99, 98, 0⟩]
      ∧ (saveSummaryCSVRow
          (baseSnapshot [] [⟨"n1", 10, 20, 0⟩, ⟨"n2", 99, 98, 0⟩] ⟨0, 0, []⟩)).jvm_memory_percent
          = (10 : ℚ)
      ∧ (saveSummaryCSVRow
          (baseSnapshot [] [⟨"n1", 10, 20, 0⟩, ⟨"n2", 99, 98, 0⟩] ⟨0, 0, []⟩)).cpu_percent
          = (20 : ℚ) :=
  ⟨rfl,
   (csv_heap_cpu_first_node_only _ ⟨"n1", 10, 20, 0⟩ [⟨"n2", 99, 98, 0⟩] rfl).1,
   (csv_heap_cpu_first_node_only _ ⟨"n1", 10, 20, 0⟩ [⟨"n2", 99, 98, 0⟩] rfl).2⟩

/-! ## C2: isolation of fetch failures in `runFullCheck` -/

/-- An `ApiResults` in which every fetch succeeds with the given payloads. -/
def mkOkApi (h : ClusterHealth) (tp : List ThreadPool) (ns : List NodeStat)
    (ix ixu : Option IndexStatsResult) (pend : List Unit) (act : ActiveTasksResult)
    (cb : CircuitBreakerResult) (cm : CacheMetricsResult)
    (ss ssu : Option SegmentStatsResult) (qp : List ThreadPool) (hot : String) : ApiResults :=
  ⟨.ok h, .ok tp, .ok ns, .ok ix, .ok ixu, .ok (), .ok (), .ok (), .ok pend,
   .ok act, .ok cb, .ok cm, .ok ss, .ok ssu, .ok qp, .ok hot⟩

/-- All stored metric groups of a snapshot, excluding the derived summary. -/
def metricsGroups (m : MetricsResult) :=
  (m.clusterHealth, m.threadPoolStats, m.nodeStats, m.indexStats, m.indexStatsUserRooms,
   m.clusterStats, m.pendingTasks, m.activeTasks, m.circuitBreakerStatus, m.cacheMetrics,
   m.segmentStats, m.segmentStatsUserRooms, m.queueMetrics, m.hotThreads)

/-- A concrete all-successful poll cycle. -/
def apiAllOk : ApiResults :=
  mkOkApi ⟨"green", 1⟩ [] [] none none [] ⟨0, 0, 0, 0, 0, []⟩ ⟨[], 0⟩ ⟨0, 0, []⟩
    none none [] "hot"

/-- C2 counterexample: when only the cluster-health fetch fails (every other
fetch succeeds), `runFullCheck` does not produce a snapshot at all — the
failure propagates to the surrounding catch, which rethrows, so no group is
populated and no remaining fetch result is stored. -/
theorem cluster_health_failure_aborts_whole_cycle :
    runFullCheck "t" { apiAllOk with clusterHealth := .error () } = Except.error () := rfl

/-- C2 (amended): only the individually-guarded fetches are isolated. With
every other fetch succeeding: a failure of index stats (either index), index
settings (either index), active tasks, circuit breakers, caches, segment
stats (either index), queue saturation or hot threads yields a snapshot in
which exactly that group is downgraded to its unavailable default (`null` or
the zero record) and every other group holds its fetched payload; a failure
of cluster health, thread pools, node stats, cluster settings or pending
tasks instead aborts the whole cycle with no snapshot. -/
theorem fetch_failure_isolation_by_group (ts : String) (h : ClusterHealth)
    (tp : List ThreadPool) (ns : List NodeStat) (ix ixu : Option IndexStatsResult)
    (pend : List Unit) (act : ActiveTasksResult) (cb : CircuitBreakerResult)
    (cm : CacheMetricsResult) (ss ssu : Option SegmentStatsResult)
    (qp : List ThreadPool) (hot : String) :
    (runFullCheck ts (mkOkApi h tp ns ix ixu pend act cb cm ss ssu qp hot)).map metricsGroups
        = .ok (h, tp, ns, ix, ixu, some (), pend, some act, some cb, some cm,
            ss, ssu, some (checkQueueMetrics qp), ⟨hot⟩)
      ∧ (runFullCheck ts { mkOkApi h tp ns ix ixu pend act cb cm ss ssu qp hot with
            indexStatsGreenDot := .error () }).map metricsGroups
        = .ok (h, tp, ns, none, ixu, some (), pend, some act, some cb, some cm,
            ss, ssu, some (checkQueueMetrics qp), ⟨hot⟩)
      ∧ (runFullCheck ts { mkOkApi h tp ns ix ixu pend act cb cm ss ssu qp hot with
            indexStatsUserRooms := .error () }).map metricsGroups
        = .ok (h, tp, ns, ix, none, some (), pend, some act, some cb, some cm,
            ss, ssu, some (checkQueueMetrics qp), ⟨hot⟩)
      ∧ (runFullCheck ts { mkOkApi h tp ns ix ixu pend act cb cm ss ssu qp hot with
            indexSettingsGreenDot := .error () }).map metricsGroups
        = .ok (h, tp, ns, ix, ixu, some (), pend, some act, some cb, some cm,
            ss, ssu, some (checkQueueMetrics qp), ⟨hot⟩)
      ∧ (runFullCheck ts { mkOkApi h tp ns ix ixu pend act cb cm ss ssu qp hot with
            indexSettingsUserRooms := .error () }).map metricsGroups
        = .ok (h, tp, ns, ix, ixu, some (), pend, some act, some cb, some cm,
            ss, ssu, some (checkQueueMetrics qp), ⟨hot⟩)
      ∧ (runFullCheck ts { mkOkApi h tp ns ix ixu pend act cb cm ss ssu qp hot with
            activeTasks := .error () }).map metricsGroups
        = .ok (h, tp, ns, ix, ixu, some (), pend, some ⟨0, 0, 0, 0, 0, []⟩, some cb, some cm,
            ss, ssu, some (checkQueueMetrics qp), ⟨hot⟩)
      ∧ (runFullCheck ts { mkOkApi h tp ns ix ixu pend act cb cm ss ssu qp hot with
            circuitBreakers := .error () }).map metricsGroups
        = .ok (h, tp, ns, ix, ixu, some (), pend, some act, some ⟨[], 0⟩, some cm,
            ss, ssu, some (checkQueueMetrics qp), ⟨hot⟩)
      ∧ (runFullCheck ts { mkOkApi h tp ns ix ixu pend act cb cm ss ssu qp hot with
            cacheMetrics := .error () }).map metricsGroups
        = .ok (h, tp, ns, ix, ixu, some (), pend, some act, some cb, some ⟨0, 0, []⟩,
            ss, ssu, some (checkQueueMetrics qp), ⟨hot⟩)
      ∧ (runFullCheck ts { mkOkApi h tp ns ix ixu pend act cb cm ss ssu qp hot with
            segmentsGreenDot := .error () }).map metricsGroups
        = .ok (h, tp, ns, ix, ixu, some (), pend, some act, some cb, some cm,
            none, ssu, some (checkQueueMetrics qp), ⟨hot⟩)
      ∧ (runFullCheck ts { mkOkApi h tp ns ix ixu pend act cb cm ss ssu qp hot with
            segmentsUserRooms := .error () }).map metricsGroups
        = .ok (h, tp, ns, ix, ixu, some (), pend, some act, some cb, some cm,
            ss, none, some (checkQueueMetrics qp), ⟨hot⟩)
      ∧ (runFullCheck ts { mkOkApi h tp ns ix ixu pend act cb cm ss ssu qp hot with
            queueThreadPools := .error () }).map metricsGroups
        = .ok (h, tp, ns, ix, ixu, some (), pend, some act, some cb, some cm,
            ss, ssu, some ⟨0, []⟩, ⟨hot⟩)
      ∧ (runFullCheck ts { mkOkApi h tp ns ix ixu pend act cb cm ss ssu qp hot with
            hotThreads := .error () }).map metricsGroups
        = .ok (h, tp, ns, ix, ixu, some (), pend, some act, some cb, some cm,
            ss, ssu, some (checkQueueMetrics qp), ⟨"Not available"⟩)
      ∧ runFullCheck ts { mkOkApi h tp ns ix ixu pend act cb cm ss ssu qp hot with
            clusterHealth := .error () } = .error ()
      ∧ runFullCheck ts { mkOkApi h tp ns ix ixu pend act cb cm ss ssu qp hot with
            threadPools := .error () } = .error ()
      ∧ runFullCheck ts { mkOkApi h tp ns ix ixu pend act cb cm ss ssu qp hot with
            nodeStats := .error () } = .error ()
      ∧ runFullCheck ts { mkOkApi h tp ns ix ixu pend act cb cm ss ssu qp hot with
            clusterSettings := .error () } = .error ()
      ∧ runFullCheck ts { mkOkApi h tp ns ix ixu pend act cb cm ss ssu qp hot with
            pendingTasks := .error () } = .error () :=
  ⟨rfl, rfl, rfl, rfl, rfl, rfl, rfl, rfl, rfl, rfl, rfl, rfl, rfl, rfl, rfl, rfl, rfl⟩

/-! ## C5: the numeric summary extraction -/

/-- C5 counterexample: with queue saturation at 30% (below the 50% warning
threshold) the classifier leaves `search_queue_saturation_pct` at its initial
0 instead of copying the 30 — the extraction of that field is conditional on
a threshold, not a pure projection. -/
theorem summary_extraction_not_pure_projection :
    ({ baseSnapshot [] [] ⟨0, 0, []⟩ with queueMetrics := some ⟨30, []⟩ } :
        MetricsResult).queueMetrics = some ⟨30, []⟩
      ∧ (analyzeCriticalIssues
          { baseSnapshot [] [] ⟨0, 0, []⟩ with queueMetrics := some ⟨30, []⟩ }).search_queue_saturation_pct = 0
      ∧ (0 : ℚ) ≠ 30 := by
  refine ⟨rfl, ?_, by norm_num⟩
  norm_num [analyzeCriticalIssues, baseSnapshot, initialSummary]

/-- C5 (amended): starting from the initial summary, the classifier copies
the active-search count and the three long-running-query counts from the
active-tasks group unconditionally; `circuit_breaker_trips` ends equal to the
fetched trip count (written only when positive, but the initial value 0
agrees with it otherwise); `search_queue_saturation_pct` however is copied
only when the saturation exceeds 50 and otherwise stays 0. -/
theorem summary_numeric_extraction (metrics : MetricsResult)
    (t : ActiveTasksResult) (cb : CircuitBreakerResult) (qm : QueueMetricsResult)
    (hs : metrics.summary = initialSummary)
    (ht : metrics.activeTasks = some t)
    (hcb : metrics.circuitBreakerStatus = some cb)
    (hqm : metrics.queueMetrics = some qm) :
    (analyzeCriticalIssues metrics).active_searches = t.searchTasks
      ∧ (analyzeCriticalIssues metrics).long_running_queries_5s = t.longRunning5s
      ∧ (analyzeCriticalIssues metrics).long_running_queries_10s = t.longRunning10s
      ∧ (analyzeCriticalIssues metrics).long_running_queries_30s = t.longRunning30s
      ∧ (analyzeCriticalIssues metrics).circuit_breaker_trips = cb.totalTrips
      ∧ (analyzeCriticalIssues metrics).search_queue_saturation_pct =
          (if qm.maxSaturation > 50 then qm.maxSaturation else 0) := by
  refine ⟨?_, ?_, ?_, ?_, ?_, ?_⟩ <;>
    (simp only [analyzeCriticalIssues, hs, ht, hcb, hqm]
     split_ifs <;> simp [initialSummary] <;> first | rfl | omega | linarith)

/-- C5 witness: a snapshot with 2 active searches, long-running counts
3/4/5, 7 breaker trips and 60% saturation yields exactly those six numbers
in the summary. -/
theorem summary_numeric_extraction_witness :
    (analyzeCriticalIssues { baseSnapshot [] [] ⟨0, 0, []⟩ with
        activeTasks := some ⟨1, 2, 3, 4, 5, []⟩
        circuitBreakerStatus := some ⟨[], 7⟩
        queueMetrics := some ⟨60, []⟩ }).active_searches = 2
      ∧ (analyzeCriticalIssues { baseSnapshot [] [] ⟨0, 0, []⟩ with
          activeTasks := some ⟨1, 2, 3, 4, 5, []⟩
          circuitBreakerStatus := some ⟨[], 7⟩
          queueMetrics := some ⟨60, []⟩ }).long_running_queries_5s = 3
      ∧ (analyzeCriticalIssues { baseSnapshot [] [] ⟨0, 0, []⟩ with
          activeTasks := some ⟨1, 2, 3, 4, 5, []⟩
          circuitBreakerStatus := some ⟨[], 7⟩
          queueMetrics := some ⟨60, []⟩ }).long_running_queries_10s = 4
      ∧ (analyzeCriticalIssues { baseSnapshot [] [] ⟨0, 0, []⟩ with
          activeTasks := some ⟨1, 2, 3, 4, 5, []⟩
          circuitBreakerStatus := some ⟨[], 7⟩
          queueMetrics := some ⟨60, []⟩ }).long_running_queries_30s = 5
      ∧ (analyzeCriticalIssues { baseSnapshot [] [] ⟨0, 0, []⟩ with
          activeTasks := some ⟨1, 2, 3, 4, 5, []⟩
          circuitBreakerStatus := some ⟨[], 7⟩
          queueMetrics := some ⟨60, []⟩ }).circuit_breaker_trips = 7
      ∧ (analyzeCriticalIssues { baseSnapshot [] [] ⟨0, 0, []⟩ with
          activeTasks := some ⟨1, 2, 3, 4, 5, []⟩
          circuitBreakerStatus := some ⟨[], 7⟩
          queueMetrics := some ⟨60, []⟩ }).search_queue_saturation_pct = 60 := by
  have h := summary_numeric_extraction
    { baseSnapshot [] [] ⟨0, 0, []⟩ with
        activeTasks := some ⟨1, 2, 3, 4, 5, []⟩
        circuitBreakerStatus := some ⟨[], 7⟩
        queueMetrics := some ⟨60, []⟩ }
    ⟨1, 2, 3, 4, 5, []⟩ ⟨[], 7⟩ ⟨60, []⟩ rfl rfl rfl rfl
  obtain ⟨h1, h2, h3, h4, h5, h6⟩ := h
  refine ⟨h1, h2, h3, h4, h5, ?_⟩
  rw [h6]
  norm_num

/-! ## C7: cache-eviction entries -/

/-- Is an entry one of the two cache-eviction warnings? -/
def isCacheEntry : Entry → Bool
  | .queryCacheEvictionsWarn _ => true
  | .fieldDataEvictionsWarn _ => true
  | _ => false

theorem mem_if_singleton {c : Prop} [Decidable c] {e x : Entry} :
    (e ∈ (if c then [x] else [])) ↔ (c ∧ e = x) := by
  split <;> simp_all

/-- C7 counterexample: 6000 query-cache evictions with 0 field-data evictions
is a combined count above 5000, yet the classifier appends no warning at all
(the classifier thresholds are 10000 for query cache and 1000 for field data,
evaluated separately; the combined-5000 test only prints a console line inside
`checkCacheMetrics`). -/
theorem combined_evictions_5000_no_warning :
    (analyzeCriticalIssues (baseSnapshot [] [] ⟨6000, 0, []⟩)).warnings = []
      ∧ 6000 + 0 > 5000 := by
  constructor
  · norm_num [analyzeCriticalIssues, baseSnapshot, initialSummary, checkQueueMetrics,
      queuePoolNames]
    decide
  · norm_num

/-- C7 (amended): the classifier never puts a cache-eviction entry into
`critical_issues` for any snapshot, and on an otherwise healthy snapshot its
cache warnings are exactly: one query-cache warning iff the query-cache
eviction count exceeds 10000, plus one field-data warning iff the field-data
eviction count exceeds 1000 — the two counts are tested separately, never
combined, and the 5000 threshold plays no role in the classifier. -/
theorem cache_eviction_warning_thresholds (m : MetricsResult) (qce fde : Nat) :
    (analyzeCriticalIssues m).critical_issues.countP (fun e => isCacheEntry e) = 0
      ∧ (analyzeCriticalIssues (baseSnapshot [] [] ⟨qce, fde, []⟩)).warnings =
          (if qce > 10000 then [Entry.queryCacheEvictionsWarn qce] else [])
            ++ (if fde > 1000 then [Entry.fieldDataEvictionsWarn fde] else []) := by
  constructor
  · rw [List.countP_eq_zero]
    intro e he
    cases e <;> try simp [isCacheEntry]
    all_goals
      rcases hix : m.indexStats with _ | s <;>
        rcases hact : m.activeTasks with _ | t <;>
          rcases hcb : m.circuitBreakerStatus with _ | cb <;>
            rcases hqm : m.queueMetrics with _ | qm <;>
              (simp only [analyzeCriticalIssues, hix, hact, hcb, hqm] at he
               simp only [List.mem_append, List.mem_flatMap, mem_if_singleton] at he
               simp at he)
  · norm_num [analyzeCriticalIssues, baseSnapshot, initialSummary, checkQueueMetrics,
      queuePoolNames]
    decide

/-! ## C6: thread-pool queue fill -/

theorem toFixed2_nonneg (x : ℚ) (hx : 0 ≤ x) : 0 ≤ toFixed2 x := by
  unfold toFixed2
  have h1 : (0 : ℤ) ≤ Int.floor (x * 100 + 1 / 2) := by
    apply Int.floor_nonneg.mpr
    positivity
  have h2 : (0 : ℚ) ≤ (Int.floor (x * 100 + 1 / 2) : ℚ) := by exact_mod_cast h1
  positivity

theorem green_ne_red : ("green" : String) ≠ "red" := by decide

theorem green_ne_yellow : ("green" : String) ≠ "yellow" := by decide

theorem checkQueueMetrics_single_search (q qs : Nat) (hqs : 0 < qs) :
    (checkQueueMetrics [⟨"search", 0, q, qs⟩]).maxSaturation =
      toFixed2 (((q : ℚ) / (qs : ℚ)) * 100) := by
  have hnn : (0 : ℚ) ≤ toFixed2 (((q : ℚ) / (qs : ℚ)) * 100) :=
    toFixed2_nonneg _ (by positivity)
  have hred : (checkQueueMetrics [⟨"search", 0, q, qs⟩]).maxSaturation =
      max 0 (poolSaturation ⟨"search", 0, q, qs⟩) := rfl
  rw [hred]
  simp only [poolSaturation]
  rw [if_pos hqs]
  exact max_eq_right hnn

theorem checkQueueMetrics_single_index (q qs : Nat) :
    (checkQueueMetrics [⟨"index", 0, q, qs⟩]).maxSaturation = 0 := rfl

/-- C6 counterexample: a snapshot whose only thread pool is the `index` pool
at exactly 60% queue fill (queue 60 of size 100) and with every other metric
healthy produces zero warnings and zero critical issues: the per-pool check
only fires above 80%, and the `index` pool is not part of the queue-saturation
fetch, so no 50%-warning path sees it. -/
theorem index_pool_at_60_percent_no_entries :
    (analyzeCriticalIssues (baseSnapshot [⟨"index", 0, 60, 100⟩] [] ⟨0, 0, []⟩)).warnings = []
      ∧ (analyzeCriticalIssues
          (baseSnapshot [⟨"index", 0, 60, 100⟩] [] ⟨0, 0, []⟩)).critical_issues = []
      ∧ ((60 : ℚ) / 100) * 100 = 60 := by
  have hindex := checkQueueMetrics_single_index 60 100
  refine ⟨?_, ?_, by norm_num⟩ <;>
    norm_num [analyzeCriticalIssues, baseSnapshot, initialSummary, hindex,
      green_ne_red, green_ne_yellow]

/-- C6 (amended): on an otherwise healthy snapshot whose single thread pool
has queue size `qs > 0` and depth `q`: for a pool named `search` (one of the
four pools the queue-saturation fetch covers) the classifier emits the
saturation warning exactly when the rounded saturation is in (50, 80], the
saturation critical exactly when it exceeds 80, and additionally the per-pool
queue warning exactly when the exact fill exceeds 80% — so 60% fill gives
exactly one warning and no critical, while above 80% gives one critical plus
one warning; for a pool named `index` (outside the saturation fetch) the only
entry ever emitted is the per-pool warning above 80% fill, and never any
critical. -/
theorem queue_fill_thresholds (q qs : Nat) (hqs : 0 < qs) :
    ((analyzeCriticalIssues (baseSnapshot [⟨"search", 0, q, qs⟩] [] ⟨0, 0, []⟩)).warnings =
        (if (q : ℚ) > (qs : ℚ) * ((8 : ℚ) / 10) then
          [Entry.poolQueueFullWarn "search" (toFixed0 (((q : ℚ) / (qs : ℚ)) * 100))]
        else [])
        ++ (if toFixed2 (((q : ℚ) / (qs : ℚ)) * 100) > 80 then []
            else if toFixed2 (((q : ℚ) / (qs : ℚ)) * 100) > 50 then
              [Entry.satWarn (toFixed2 (((q : ℚ) / (qs : ℚ)) * 100))]
            else []))
      ∧ ((analyzeCriticalIssues
            (baseSnapshot [⟨"search", 0, q, qs⟩] [] ⟨0, 0, []⟩)).critical_issues =
          (if toFixed2 (((q : ℚ) / (qs : ℚ)) * 100) > 80 then
            [Entry.satCriticalIssue (toFixed2 (((q : ℚ) / (qs : ℚ)) * 100))]
          else []))
      ∧ ((analyzeCriticalIssues (baseSnapshot [⟨"index", 0, q, qs⟩] [] ⟨0, 0, []⟩)).warnings =
          (if (q : ℚ) > (qs : ℚ) * ((8 : ℚ) / 10) then
            [Entry.poolQueueFullWarn "index" (toFixed0 (((q : ℚ) / (qs : ℚ)) * 100))]
          else []))
      ∧ ((analyzeCriticalIssues
            (baseSnapshot [⟨"index", 0, q, qs⟩] [] ⟨0, 0, []⟩)).critical_issues = []) := by
  have hsearch := checkQueueMetrics_single_search q qs hqs
  have hindex := checkQueueMetrics_single_index q qs
  refine ⟨?_, ?_, ?_, ?_⟩ <;>
    norm_num [analyzeCriticalIssues, baseSnapshot, initialSummary, hsearch, hindex, hqs,
      green_ne_red, green_ne_yellow]

/-- C6 witness: the `search` pool at 60% fill (queue 60 of 100) on an
otherwise healthy snapshot yields exactly one warning — the 60% saturation
warning — and zero critical issues. -/
theorem queue_fill_thresholds_witness :
    0 < 100
      ∧ (analyzeCriticalIssues (baseSnapshot [⟨"search", 0, 60, 100⟩] [] ⟨0, 0, []⟩)).warnings
          = [Entry.satWarn 60]
      ∧ (analyzeCriticalIssues
          (baseSnapshot [⟨"search", 0, 60, 100⟩] [] ⟨0, 0, []⟩)).critical_issues = [] := by
  have h := queue_fill_thresholds 60 100 (by norm_num)
  have hval : toFixed2 ((((60 : Nat) : ℚ) / ((100 : Nat) : ℚ)) * 100) = 60 := by
    have hfl : Int.floor (((((60 : Nat) : ℚ) / ((100 : Nat) : ℚ)) * 100) * 100 + 1 / 2)
        = (6000 : ℤ) := by
      rw [Int.floor_eq_iff]
      norm_num
    unfold toFixed2
    rw [hfl]
    norm_num
  refine ⟨by norm_num, ?_, ?_⟩
  · rw [h.1, hval]
    norm_num
  · rw [h.2.1, hval]
    norm_num

end UpgradeScripts
